import Mathlib

/-!
Verification of the FlowPrizeVault benchmark orchestrator.

Shallow embedding of the measurement/orchestration code in
`benchmark_computation.py`, `benchmark/benchmark_draw_computation.py`,
`benchmark/benchmark_lazy_users.py` and `benchmark/benchmark_complete_draw.py`.
Each definition mirrors one function (or one loop) of the Python source;
line numbers in the doc comments refer to the source files.  Machine
arithmetic is modelled with `Nat`/`Int`/`ℚ` (Python ints are unbounded; the
float literals `0.9`/`2.0` appearing in the source are modelled exactly as
the rationals `9/10`/`2`).
-/

namespace FlowPrizeVault

/-! ### String helpers

Python's substring operator `pat in s` and `str.lower()`, used by the
error-message classification in the benchmark scripts. -/

/-- Python `pat in hay` for strings, on character lists: `pat` occurs as a
contiguous substring of `hay`. -/
def listContains (pat : List Char) : List Char → Bool
  | [] => pat.isEmpty
  | c :: rest => pat.isPrefixOf (c :: rest) || listContains pat rest

/-- Python `s.lower()`: the character data of `s`, lowercased. -/
def lowerData (s : String) : List Char := s.data.map Char.toLower

/-- Python `pat in s.lower()` (the patterns in the source are already
lowercase). -/
def containsLower (s : String) (pat : String) : Bool :=
  listContains pat.data (lowerData s)

/-! ### `find_batch_limit` (benchmark_computation.py, lines 706-930)

The limit-finding probe loop and the estimate printed in its summary. -/

/-- One successful probe recorded in `results` inside `find_batch_limit`
(lines 846-851): the tested batch size and its measured computation units. -/
structure ProbeSample where
  batch_size : Nat
  computation : Nat
deriving DecidableEq

/-- The outcome of one `run_batch_test` probe as observed by
`find_batch_limit`: the success flag and the optionally measured
computation (`None` when the report had no data). -/
structure ProbeOutcome where
  success : Bool
  computation : Option Nat

/-- The probing loop of `find_batch_limit` (lines 836-886).  A successful
probe with a positive measured computation is appended to `results`; a
failed probe breaks the loop; a successful probe without a measurable
computation is skipped.  In the source the loop runs over
`test_sizes = [max_users]`; the list of sizes is kept as a parameter. -/
def collect_results (probe : Nat → ProbeOutcome) : List Nat → List ProbeSample
  | [] => []
  | b :: rest =>
    let o := probe b
    if o.success then
      match o.computation with
      | some cu =>
        if 0 < cu then ⟨b, cu⟩ :: collect_results probe rest
        else collect_results probe rest
      | none => collect_results probe rest
    else []

/-- `per_user = cu / batch_size` for one recorded sample (line 844). -/
def per_user (r : ProbeSample) : ℚ := (r.computation : ℚ) / r.batch_size

/-- `avg_per_user = sum(r["per_user"] for r in results) / len(results)`
(line 907). -/
def avg_per_user (results : List ProbeSample) : ℚ :=
  (results.map per_user).sum / results.length

/-- Python `int(x)` truncates toward zero: floor for non-negative values,
ceiling for negative ones. -/
def pyInt (q : ℚ) : ℤ := if 0 ≤ q then ⌊q⌋ else ⌈q⌉

/-- `theoretical_max = int(9999 / avg_per_user) if avg_per_user > 0 else 0`
(line 908). -/
def theoretical_max (results : List ProbeSample) : ℤ :=
  if 0 < avg_per_user results then pyInt (9999 / avg_per_user results) else 0

/-- `safe_max = int(theoretical_max * 0.9)` (line 909), the recommended
limit with the 10 percent safety margin; `0.9` is modelled as `9/10`. -/
def safe_max (results : List ProbeSample) : ℤ :=
  pyInt ((theoretical_max results : ℚ) * (9 / 10))

/-! ### Batch-processing loops (phase 2 of the draw pipeline) -/

/-- The outcome of one `process_draw_batch` transaction as seen by the
phase-2 loop of `run_full_draw_benchmark`. -/
structure BatchTx where
  success : Bool
  computation : Nat

/-- How the phase-2 loop of `run_full_draw_benchmark` ends. -/
inductive BatchExit
  | completed
  | opFailed
  | ceiling
deriving DecidableEq

/-- The `while batch_count < max_batches` loop of `run_full_draw_benchmark`
(benchmark_draw_computation.py, lines 980-1003).  `fuel` is the number of
iterations still allowed, `batch_count` the iterations already performed;
the oracle `op` gives the n-th transaction outcome and `isBatchComplete`
the status query after n batches.  Returns the final count and the exit
reason. -/
def draw_batch_loop (op : Nat → BatchTx) (isBatchComplete : Nat → Bool) :
    Nat → Nat → Nat × BatchExit
  | 0, batch_count => (batch_count, .ceiling)
  | fuel + 1, batch_count =>
    let r := op (batch_count + 1)
    if r.success = false then (batch_count + 1, .opFailed)
    else if isBatchComplete (batch_count + 1) then (batch_count + 1, .completed)
    else draw_batch_loop op isBatchComplete fuel (batch_count + 1)

/-- Phase 2 of `run_full_draw_benchmark` (lines 978-1003): computes
`max_batches = user_count // batch_size + 5` and runs the batch loop.
`none` models the `ZeroDivisionError` Python raises on `user_count // 0`,
which no handler in the script catches. -/
def run_full_draw_phase2 (op : Nat → BatchTx) (isBatchComplete : Nat → Bool)
    (user_count batch_size : Nat) : Option (Nat × BatchExit) :=
  if batch_size = 0 then none
  else some (draw_batch_loop op isBatchComplete (user_count / batch_size + 5) 0)

/-- The `while batch_num < max_batches` loop of `run_multi_user_benchmark`
(benchmark_computation.py, lines 661-677).  The transaction result does not
influence control flow there (only its computation is recorded), so only
the `is_batch_complete` status oracle is relevant; it is queried after the
counter is incremented.  Returns the final `batch_num`. -/
def multi_user_batch_loop (isBatchComplete : Nat → Bool) : Nat → Nat → Nat
  | 0, batch_num => batch_num
  | fuel + 1, batch_num =>
    if isBatchComplete (batch_num + 1) then batch_num + 1
    else multi_user_batch_loop isBatchComplete fuel (batch_num + 1)

/-- Step 7 of `run_multi_user_benchmark` (lines 659-677):
`max_batches = user_count // batch_size + 10`, then the batch loop.
`none` models the `ZeroDivisionError` raised when `batch_size = 0`. -/
def run_multi_user_batches (isBatchComplete : Nat → Bool)
    (user_count batch_size : Nat) : Option Nat :=
  if batch_size = 0 then none
  else some (multi_user_batch_loop isBatchComplete (user_count / batch_size + 10) 0)

/-! ### `benchmark_process_draw_batch` (benchmark_lazy_users.py, lines 303-360)

The batch loop with the "already complete" error absorption. -/

/-- The outcome of one `process_draw_batch` transaction as seen by
`benchmark_process_draw_batch`: success flag, combined stdout+stderr text,
and the computation resolved from the report. -/
structure LazyTx where
  success : Bool
  output : String
  computation : Nat

/-- The "already complete" test applied to a failed transaction's output
(line 333): `"batch processing already complete" in output.lower() or
"already complete" in output.lower()`. -/
def is_already_complete_msg (output : String) : Bool :=
  containsLower output "batch processing already complete" ||
  containsLower output "already complete"

/-- The batch-completion test on a successful transaction's output
(line 350): `'"remaining":0' in output.replace(' ', '') or
'remaining: 0' in output.lower()`. -/
def is_remaining_zero (output : String) : Bool :=
  listContains "\"remaining\":0".data (output.data.filter (fun c => c ≠ ' ')) ||
  containsLower output "remaining: 0"

/-- Sum of the computations of transactions `i, i+1, ..., i+j-1`: the
`total_batch_comp` accumulated by `j` successful loop iterations. -/
def batch_comp_sum (op : Nat → LazyTx) (i : Nat) : Nat → Nat
  | 0 => 0
  | j + 1 => (op i).computation + batch_comp_sum op (i + 1) j

/-- The `for _ in range(100)` batch loop of `benchmark_process_draw_batch`
(lines 326-353).  `i` is the next transaction index, `total` the
accumulated computation.  A failure whose message matches the "already
complete" pattern breaks the loop (the function then returns the total); a
non-matching failure returns `None` (modelled as `none`); a success adds
its computation and breaks when the output reports zero remaining. -/
def lazy_batch_loop (op : Nat → LazyTx) : Nat → Nat → Nat → Option Nat
  | 0, _, total => some total
  | fuel + 1, i, total =>
    let r := op i
    if r.success = false then
      if is_already_complete_msg r.output then some total else none
    else
      if is_remaining_zero r.output then some (total + r.computation)
      else lazy_batch_loop op fuel (i + 1) (total + r.computation)

/-- `benchmark_process_draw_batch`'s batch-processing phase: the loop with
its ceiling of 100 iterations, starting from an empty total. -/
def benchmark_process_draw_batch (op : Nat → LazyTx) : Option Nat :=
  lazy_batch_loop op 100 0 0

/-! ### `run_flow_tx` (benchmark_draw_computation.py, lines 428-486)

Normalization of a CLI transaction result into a success/failure
classification. -/

/-- The fields of the Flow CLI JSON transaction payload that `run_flow_tx`
reads; `none` models an absent key (or a JSON `null`). -/
structure TxJson where
  id : Option String := none
  transactionId : Option String := none
  computationUsed : Option Nat := none
  gasUsed : Option Nat := none
  status : Option String := none
  statusString : Option String := none
  error : Option String := none
  errorMessage : Option String := none

/-- The CLI stdout as seen by `run_flow_tx`: either `json.loads` succeeds
on it (structured response), or it is free text
(`json.JSONDecodeError` branch). -/
inductive CliStdout
  | parsed (raw : String) (j : TxJson)
  | text (raw : String)

/-- `error = result.get('error', result.get('errorMessage', ''))`
(line 464). -/
def declared_error (j : TxJson) : String :=
  j.error.getD (j.errorMessage.getD "")

/-- `success = result.get('status') == 'SEALED' or
result.get('statusString') == 'SEALED'` (line 461). -/
def sealed_success (j : TxJson) : Bool :=
  (j.status == some "SEALED") || (j.statusString == some "SEALED")

/-- `tx_id = result.get('id', result.get('transactionId'))` (line 455). -/
def json_tx_id (j : TxJson) : Option String :=
  j.id.orElse (fun _ => j.transactionId)

/-- `computation = result.get('computationUsed', 0)`, falling back to
`gasUsed` when falsy (lines 457-460). -/
def json_computation (j : TxJson) : Nat :=
  let c := j.computationUsed.getD 0
  if c = 0 then j.gasUsed.getD 0 else c

/-- The success/output classification of `run_flow_tx` (lines 447-486).
On a parsed response: failure with the declared message only when the
status is not SEALED and the declared error message is non-empty;
otherwise the final `return True, stdout, ...` is reached.  On unparsed
output: `success = code == 0 and 'error' not in output.lower() and
'panic' not in output.lower()` over `stdout + stderr`. -/
def run_flow_tx_class (returncode : Int) (stdout : CliStdout)
    (stderr : String) : Bool × String :=
  match stdout with
  | .parsed raw j =>
    if sealed_success j = false ∧ declared_error j ≠ "" then
      (false, declared_error j)
    else (true, raw)
  | .text raw =>
    let output := raw ++ stderr
    ((returncode == 0) && !containsLower output "error" &&
      !containsLower output "panic", output)

/-- Following the spec's words (4.1, classification policy, priority 1): a
structured response "declares a terminal failure state" when its declared
transaction status is FAILED or it carries a declared error message. -/
def specDeclaresTerminalFailure (j : TxJson) : Bool :=
  (j.status == some "FAILED") || (j.statusString == some "FAILED") ||
  (declared_error j != "")

/-! ### Computation-report correlation -/

/-- One entry of the computation report's `transactions` map. -/
structure ReportEntry where
  computation : Nat
  memory : Nat
deriving DecidableEq

/-- Python truthiness of the optional transaction id (`if tx_id and ...`):
false for `None` and for the empty string. -/
def truthy_id : Option String → Bool
  | none => false
  | some s => s != ""

/-- The correlation loop of `execute_draw_phase`
(benchmark_draw_computation.py, lines 857-869): iterate over the
transactions map; take an entry on exact id match, or — whenever the whole
map has exactly one entry — take that entry.  `len` is the length of the
whole map (`len(report.get('transactions', {}))`), constant during the
loop.  `(0, 0)` is the initialization reached when no branch fires. -/
def resolve_entry_loop (tx_id : Option String) (len : Nat) :
    List (String × ReportEntry) → Nat × Nat
  | [] => (0, 0)
  | (tid, data) :: rest =>
    if truthy_id tx_id && (tx_id == some tid) then (data.computation, data.memory)
    else if len == 1 then (data.computation, data.memory)
    else resolve_entry_loop tx_id len rest

/-- The computation/memory resolution of `execute_draw_phase` for a fetched
report, given the optional transaction id of the operation just issued. -/
def execute_draw_phase_resolve (tx_id : Option String)
    (transactions : List (String × ReportEntry)) : Nat × Nat :=
  resolve_entry_loop tx_id transactions.length transactions

/-- Following the spec's words (4.2): exact id match first; only when no id
is available and the report holds exactly one entry, fall back to that only
entry; otherwise no data. -/
def specResolve (tx_id : Option String)
    (txs : List (String × ReportEntry)) : Nat × Nat :=
  match txs.find? (fun p => tx_id == some p.1) with
  | some p => (p.2.computation, p.2.memory)
  | none =>
    match tx_id, txs with
    | none, [(_, d)] => (d.computation, d.memory)
    | _, _ => (0, 0)

/-! ### Report fetching (error handling) -/

/-- A computation report: its `transactions` map. -/
structure Report where
  transactions : List (String × ReportEntry)
deriving DecidableEq

/-- The empty report `{}` (Python's empty dict, read through
`report.get("transactions", {})`). -/
def emptyReport : Report := ⟨[]⟩

/-- A Python exception escaping `get_computation_report`
(benchmark_computation.py).  Everything raised inside its `try` that
matches neither `except urllib.error.URLError` nor
`except json.JSONDecodeError`: a response-phase `TimeoutError` /
`socket.timeout` (raised by `getresponse()` / `response.read()` after the
connection is established — not a `URLError`), an
`http.client.RemoteDisconnected`, or a `UnicodeDecodeError` from
`response.read().decode()`. -/
inductive PyExn
  | timeoutError
  | remoteDisconnected
  | unicodeDecodeError
deriving DecidableEq

/-- The possible outcomes of the HTTP fetch inside
`get_computation_report` (benchmark_computation.py, lines 141-148): a
parsed report; a `urllib.error.URLError` (connect-phase network failure or
connect timeout) or a `json.JSONDecodeError`, both caught; or one of the
exception classes matched by neither `except` clause — a response-phase
timeout, a `RemoteDisconnected`, or a `UnicodeDecodeError`. -/
inductive FetchOutcome
  | ok (r : Report)
  | urlError
  | jsonDecodeError
  | responseTimeout
  | remoteDisconnected
  | unicodeDecodeError

/-- `get_computation_report` (benchmark_computation.py, lines 124-148):
returns `{}` on `URLError` and on `JSONDecodeError`; any other exception
raised inside the `try` matches neither `except` clause and propagates to
the caller (`Except.error`). -/
def get_computation_report : FetchOutcome → Except PyExn Report
  | .ok r => .ok r
  | .urlError => .ok emptyReport
  | .jsonDecodeError => .ok emptyReport
  | .responseTimeout => .error .timeoutError
  | .remoteDisconnected => .error .remoteDisconnected
  | .unicodeDecodeError => .error .unicodeDecodeError

/-- The possible outcomes of the curl-based fetch in
benchmark_draw_computation.py (lines 393-406) and benchmark_lazy_users.py
(lines 121-134): a parsed report, a failed/empty curl invocation, or any
raised exception (all caught by the bare `except`). -/
inductive CurlOutcome
  | ok (r : Report)
  | curlFailed
  | exception

/-- `get_computation_report` (benchmark_draw_computation.py, lines
393-406): `{}` when curl fails or any exception is raised. -/
def get_computation_report_curl : CurlOutcome → Report
  | .ok r => r
  | .curlFailed => emptyReport
  | .exception => emptyReport

/-- `get_computation_for_tx` (benchmark_lazy_users.py, lines 121-134):
`report.get('transactions', {}).get(tx_id, {}).get('computation', 0)`,
with 0 on any failure. -/
def get_computation_for_tx (o : CurlOutcome) (tx_id : String) : Nat :=
  match o with
  | .ok r =>
    ((r.transactions.find? (fun p => p.1 == tx_id)).map
      (fun p => p.2.computation)).getD 0
  | .curlFailed => 0
  | .exception => 0

/-! ### `BenchmarkResult` (benchmark_computation.py, lines 75-117) -/

/-- The per-run record of `benchmark_computation.py`, with its derived
metric properties below. -/
structure BenchmarkResult where
  user_count : Nat
  batch_size : Nat
  create_pool_cu : Nat := 0
  setup_users_total_cu : Nat := 0
  deposit_cus : List Nat := []
  fund_lottery_cu : Nat := 0
  start_draw_cu : Nat := 0
  batch_cus : List Nat := []
  request_randomness_cu : Nat := 0
  complete_draw_cu : Nat := 0

/-- `total_deposit_cu = sum(deposit_cus)` (lines 91-93). -/
def BenchmarkResult.total_deposit_cu (r : BenchmarkResult) : Nat :=
  r.deposit_cus.sum

/-- `avg_deposit_cu`: `total_deposit_cu / len(deposit_cus) if deposit_cus
else 0` (lines 95-97). -/
def BenchmarkResult.avg_deposit_cu (r : BenchmarkResult) : ℚ :=
  if r.deposit_cus.isEmpty then 0
  else (r.total_deposit_cu : ℚ) / r.deposit_cus.length

/-- `total_batch_cu = sum(batch_cus)` (lines 99-101). -/
def BenchmarkResult.total_batch_cu (r : BenchmarkResult) : Nat :=
  r.batch_cus.sum

/-- `avg_batch_cu`: `total_batch_cu / len(batch_cus) if batch_cus else 0`
(lines 103-105). -/
def BenchmarkResult.avg_batch_cu (r : BenchmarkResult) : ℚ :=
  if r.batch_cus.isEmpty then 0
  else (r.total_batch_cu : ℚ) / r.batch_cus.length

/-- `per_user_batch_cu`: `total_batch_cu / user_count if user_count > 0
else 0` (lines 107-109). -/
def BenchmarkResult.per_user_batch_cu (r : BenchmarkResult) : ℚ :=
  if 0 < r.user_count then (r.total_batch_cu : ℚ) / r.user_count else 0

/-- `total_draw_cu` (lines 111-117). -/
def BenchmarkResult.total_draw_cu (r : BenchmarkResult) : Nat :=
  r.start_draw_cu + r.total_batch_cu + r.request_randomness_cu +
    r.complete_draw_cu

/-! ### Variability analysis -/

/-- `min_comp = min(all_computations)`
(benchmark_draw_computation.py, line 1297; guarded by a non-empty list). -/
def min_comp (l : List Nat) : Nat := l.min?.getD 0

/-- `max_comp = max(all_computations)` (line 1298). -/
def max_comp (l : List Nat) : Nat := l.max?.getD 0

/-- `avg_comp = sum(all_computations) / len(all_computations)`
(line 1299). -/
def avg_comp (l : List Nat) : ℚ := (l.sum : ℚ) / l.length

/-- `variance_ratio = max_comp / min_comp if min_comp > 0 else 0`
(benchmark_draw_computation.py, line 1300). -/
def variance_ratio_stat (l : List Nat) : ℚ :=
  if 0 < min_comp l then (max_comp l : ℚ) / min_comp l else 0

/-- The high-variance warning condition `variance_ratio > 2`
(benchmark_draw_computation.py, line 1308). -/
def high_variance (l : List Nat) : Bool := decide (2 < variance_ratio_stat l)

/-- The `Ratio` statistic of `print_variability_summary`
(benchmark_complete_draw.py, line 702): `max / max(min, 1)`. -/
def range_ratio_stat (l : List Nat) : ℚ :=
  (max_comp l : ℚ) / (max (min_comp l) 1)

/-- `high_count = sum(1 for c in computations if c > 5000)`
(benchmark_complete_draw.py, line 685); `print_variability_summary` warns
exactly when it is positive (line 706). -/
def high_count (l : List Nat) : Nat := l.countP (fun c => decide (5000 < c))

/-! ### Concrete inputs used by witnesses and counterexamples -/

/-- A probe trace where every probe succeeds at 200 computation units. -/
def probeC1w : Nat → ProbeOutcome := fun _ => ⟨true, some 200⟩

/-- Probe trace for C5: load 100 succeeds at 200 computation units, every
other load fails. -/
def probeC5 : Nat → ProbeOutcome :=
  fun b => if b = 100 then ⟨true, some 200⟩ else ⟨false, none⟩

/-- The always-succeeding transaction oracle used for the C2 input. -/
def opC2 : Nat → BatchTx := fun _ => ⟨true, 10⟩

/-- The never-complete status oracle used for the C2 input. -/
def statusC2 : Nat → Bool := fun _ => false

/-- Transaction oracle for the C3 witness: the first batch transaction
fails with an "already complete" message. -/
def opC3w : Nat → LazyTx :=
  fun _ => ⟨false, "Error: batch processing already complete", 0⟩

/-- A structured CLI response declaring status FAILED with no error
message. -/
def jsonFailedNoMsg : TxJson := { status := some "FAILED" }

/-- A structured CLI response declaring status FAILED with the error
message "boom". -/
def jsonFailedMsg : TxJson := { status := some "FAILED", error := some "boom" }

/-- The all-empty record used to witness C10. -/
def emptyBR : BenchmarkResult := { user_count := 0, batch_size := 50 }

/-! ## Helper lemmas -/

/-- Every sample recorded by the probing loop comes from a successful probe
with a positive measured computation, at one of the tested sizes. -/
theorem collect_results_mem (probe : Nat → ProbeOutcome) :
    ∀ (sizes : List Nat) (r : ProbeSample), r ∈ collect_results probe sizes →
      r.batch_size ∈ sizes ∧ (probe r.batch_size).success = true ∧
        (probe r.batch_size).computation = some r.computation ∧
        0 < r.computation := by
  intro sizes
  induction sizes with
  | nil => intro r hr; simp [collect_results] at hr
  | cons b rest ih =>
    intro r hr
    simp only [collect_results] at hr
    split at hr
    · rename_i hs
      split at hr
      · rename_i cu hc
        split at hr
        · rename_i hcu
          rcases List.mem_cons.mp hr with rfl | hr'
          · exact ⟨List.mem_cons_self _ _, hs, hc, hcu⟩
          · obtain ⟨h1, h2, h3, h4⟩ := ih r hr'
            exact ⟨List.mem_cons_of_mem _ h1, h2, h3, h4⟩
        · obtain ⟨h1, h2, h3, h4⟩ := ih r hr
          exact ⟨List.mem_cons_of_mem _ h1, h2, h3, h4⟩
      · obtain ⟨h1, h2, h3, h4⟩ := ih r hr
        exact ⟨List.mem_cons_of_mem _ h1, h2, h3, h4⟩
    · simp at hr

/-! ## Claims -/

/-- C1: with at least one successful probe sample, `find_batch_limit`'s
estimate computes `avg_per_user` as the arithmetic mean of the per-unit
costs of the successful samples, `theoretical_max = floor(9999 /
avg_per_user)` and `safe_max = floor(theoretical_max * (1 - 0.1))`, and
consequently `safe_max ≤ theoretical_max`. -/
theorem claim_C1_estimate (probe : Nat → ProbeOutcome) (sizes : List Nat)
    (hsz : ∀ b ∈ sizes, 0 < b)
    (hne : collect_results probe sizes ≠ []) :
    avg_per_user (collect_results probe sizes) =
      ((collect_results probe sizes).map per_user).sum /
        ((collect_results probe sizes).length : ℚ) ∧
    theoretical_max (collect_results probe sizes) =
      ⌊(9999 : ℚ) / avg_per_user (collect_results probe sizes)⌋ ∧
    safe_max (collect_results probe sizes) =
      ⌊(theoretical_max (collect_results probe sizes) : ℚ) * (1 - 1 / 10)⌋ ∧
    safe_max (collect_results probe sizes) ≤
      theoretical_max (collect_results probe sizes) := by
  set R := collect_results probe sizes with hR
  have hpos : ∀ x ∈ R.map per_user, 0 < x := by
    intro x hx
    rcases List.mem_map.mp hx with ⟨r, hrR, rfl⟩
    obtain ⟨hbs, _, _, hcu⟩ := collect_results_mem probe sizes r (hR ▸ hrR)
    have hb : 0 < r.batch_size := hsz _ hbs
    exact div_pos (by exact_mod_cast hcu) (by exact_mod_cast hb)
  have hmapne : R.map per_user ≠ [] := by
    simpa using hne
  have hsum : 0 < (R.map per_user).sum := List.sum_pos _ hpos hmapne
  have hlen : (0 : ℚ) < (R.length : ℚ) := by
    have h0 : 0 < R.length := List.length_pos.mpr hne
    exact_mod_cast h0
  have havg : 0 < avg_per_user R := by
    rw [avg_per_user]; exact div_pos hsum hlen
  have hq : (0 : ℚ) ≤ 9999 / avg_per_user R :=
    div_nonneg (by norm_num) havg.le
  have htm : theoretical_max R = ⌊(9999 : ℚ) / avg_per_user R⌋ := by
    rw [theoretical_max, if_pos havg, pyInt, if_pos hq]
  have htm0 : 0 ≤ theoretical_max R := by
    rw [htm]
    exact Int.le_floor.mpr (by exact_mod_cast hq)
  have hsm : safe_max R = ⌊(theoretical_max R : ℚ) * (1 - 1 / 10)⌋ := by
    have h9 : (0 : ℚ) ≤ (theoretical_max R : ℚ) * (9 / 10) :=
      mul_nonneg (by exact_mod_cast htm0) (by norm_num)
    rw [safe_max, pyInt, if_pos h9]
    norm_num
  have hle : safe_max R ≤ theoretical_max R := by
    rw [hsm]
    calc ⌊(theoretical_max R : ℚ) * (1 - 1 / 10)⌋
        ≤ ⌊(theoretical_max R : ℚ)⌋ := by
          apply Int.floor_le_floor
          exact mul_le_of_le_one_right (by exact_mod_cast htm0) (by norm_num)
      _ = theoretical_max R := Int.floor_intCast _
  exact ⟨rfl, htm, hsm, hle⟩

/-- Witness for C1 at one successful sample of size 100. -/
theorem claim_C1_estimate_witness :
    collect_results probeC1w [100] ≠ [] ∧
    safe_max (collect_results probeC1w [100]) ≤
      theoretical_max (collect_results probeC1w [100]) :=
  ⟨by decide, (claim_C1_estimate probeC1w [100] (by decide) (by decide)).2.2.2⟩

/-- Counterexample to C9 as stated: a timeout during the response phase of
the urllib-based `get_computation_report` is a timeout failure of the
computation-report query, yet it matches neither `except` clause and is
raised to the caller — the call does not yield a "no data" result. -/
theorem claim_C9_counterexample :
    get_computation_report .responseTimeout = .error .timeoutError ∧
    ∀ r : Report, get_computation_report .responseTimeout ≠ .ok r :=
  ⟨rfl, fun _ h => nomatch h⟩

/-- C9 (amended): the failures the fetchers' handlers cover yield a "no
data" result: the urllib-based `get_computation_report` returns `{}` on a
`URLError` (connect-phase network failure or connect timeout) and on a
`JSONDecodeError`, and the curl-based fetchers, whose bare `except`
clauses catch every exception, never raise — they return `{}` or a zero
computation on any failure.  But a response-phase timeout, a
`RemoteDisconnected`, or a `UnicodeDecodeError` in the urllib-based
fetcher matches neither of its `except` clauses and propagates to the
caller. -/
theorem claim_C9_amended :
    get_computation_report .urlError = .ok emptyReport ∧
    get_computation_report .jsonDecodeError = .ok emptyReport ∧
    get_computation_report .responseTimeout = .error .timeoutError ∧
    get_computation_report .remoteDisconnected = .error .remoteDisconnected ∧
    get_computation_report .unicodeDecodeError = .error .unicodeDecodeError ∧
    get_computation_report_curl .curlFailed = emptyReport ∧
    get_computation_report_curl .exception = emptyReport ∧
    (∀ tx : String, get_computation_for_tx .curlFailed tx = 0) ∧
    (∀ tx : String, get_computation_for_tx .exception tx = 0) :=
  ⟨rfl, rfl, rfl, rfl, rfl, rfl, rfl, fun _ => rfl, fun _ => rfl⟩

/-- C10: every derived metric of a `BenchmarkResult` is total: the averages
are 0 on empty lists and `per_user_batch_cu` is 0 when `user_count = 0`;
whenever a quotient is actually formed, its denominator is positive. -/
theorem claim_C10_total_metrics (r : BenchmarkResult) :
    (r.deposit_cus = [] → r.avg_deposit_cu = 0) ∧
    (r.deposit_cus ≠ [] →
      r.avg_deposit_cu = (r.total_deposit_cu : ℚ) / (r.deposit_cus.length : ℚ) ∧
        0 < r.deposit_cus.length) ∧
    (r.batch_cus = [] → r.avg_batch_cu = 0) ∧
    (r.batch_cus ≠ [] →
      r.avg_batch_cu = (r.total_batch_cu : ℚ) / (r.batch_cus.length : ℚ) ∧
        0 < r.batch_cus.length) ∧
    (r.user_count = 0 → r.per_user_batch_cu = 0) ∧
    (0 < r.user_count →
      r.per_user_batch_cu = (r.total_batch_cu : ℚ) / (r.user_count : ℚ)) := by
  refine ⟨fun h => ?_, fun h => ⟨?_, ?_⟩, fun h => ?_, fun h => ⟨?_, ?_⟩,
    fun h => ?_, fun h => ?_⟩
  · simp [BenchmarkResult.avg_deposit_cu, h]
  · simp [BenchmarkResult.avg_deposit_cu, h]
  · exact List.length_pos.mpr h
  · simp [BenchmarkResult.avg_batch_cu, h]
  · simp [BenchmarkResult.avg_batch_cu, h]
  · exact List.length_pos.mpr h
  · simp [BenchmarkResult.per_user_batch_cu, h]
  · simp [BenchmarkResult.per_user_batch_cu, h]

/-- Witness for C10 at a record with empty lists and zero users. -/
theorem claim_C10_total_metrics_witness :
    emptyBR.avg_deposit_cu = 0 ∧ emptyBR.avg_batch_cu = 0 ∧
      emptyBR.per_user_batch_cu = 0 :=
  ⟨(claim_C10_total_metrics emptyBR).1 rfl,
   (claim_C10_total_metrics emptyBR).2.2.1 rfl,
   (claim_C10_total_metrics emptyBR).2.2.2.2.1 rfl⟩

/-- The phase-2 loop of `run_full_draw_benchmark` performs at most `fuel`
further iterations. -/
theorem draw_batch_loop_count (op : Nat → BatchTx) (st : Nat → Bool) :
    ∀ fuel batch_count,
      (draw_batch_loop op st fuel batch_count).1 ≤ batch_count + fuel := by
  intro fuel
  induction fuel with
  | zero => intro c; simp [draw_batch_loop]
  | succ f ih =>
    intro c
    simp only [draw_batch_loop]
    split
    · simp
    · split
      · simp
      · calc (draw_batch_loop op st f (c + 1)).1 ≤ (c + 1) + f := ih (c + 1)
          _ ≤ c + (f + 1) := by omega

/-- Exit-reason characterization of the phase-2 loop: a `completed` exit
means the status predicate held, an `opFailed` exit means the last
transaction failed. -/
theorem draw_batch_loop_exit (op : Nat → BatchTx) (st : Nat → Bool) :
    ∀ fuel batch_count,
      ((draw_batch_loop op st fuel batch_count).2 = .completed →
        st (draw_batch_loop op st fuel batch_count).1 = true) ∧
      ((draw_batch_loop op st fuel batch_count).2 = .opFailed →
        (op (draw_batch_loop op st fuel batch_count).1).success = false) := by
  intro fuel
  induction fuel with
  | zero => intro c; simp [draw_batch_loop]
  | succ f ih =>
    intro c
    simp only [draw_batch_loop]
    split
    · rename_i hs
      constructor
      · intro h; simp at h
      · intro _; exact hs
    · split
      · rename_i hst
        constructor
        · intro _; exact hst
        · intro h; simp at h
      · exact ih (c + 1)

/-- Counterexample to C2 as stated: at batch size 0, phase 2 of
`run_full_draw_benchmark` computes `user_count // 0`, raising an uncaught
`ZeroDivisionError` (modelled as `none`) instead of exiting the loop via
predicate, failure or ceiling. -/
theorem claim_C2_counterexample :
    run_full_draw_phase2 opC2 statusC2 50 0 = none := rfl

/-- C2 (amended): for every configuration with a positive batch size and
every behaviour of the status predicate and transaction outcomes, phase 2
terminates without an exception, performs at most
`user_count // batch_size + 5` batch iterations, and exits via the
completion predicate, an operation failure, or ceiling exhaustion. -/
theorem claim_C2_amended (op : Nat → BatchTx) (st : Nat → Bool)
    (user_count batch_size : Nat) (hb : 0 < batch_size) :
    ∃ n reason,
      run_full_draw_phase2 op st user_count batch_size = some (n, reason) ∧
      n ≤ user_count / batch_size + 5 ∧
      (reason = .completed → st n = true) ∧
      (reason = .opFailed → (op n).success = false) := by
  rw [run_full_draw_phase2, if_neg (by omega)]
  refine ⟨(draw_batch_loop op st (user_count / batch_size + 5) 0).1,
    (draw_batch_loop op st (user_count / batch_size + 5) 0).2, rfl, ?_, ?_, ?_⟩
  · have := draw_batch_loop_count op st (user_count / batch_size + 5) 0
    omega
  · exact (draw_batch_loop_exit op st _ 0).1
  · exact (draw_batch_loop_exit op st _ 0).2

/-- Witness for the amended C2 at 120 users and batch size 50. -/
theorem claim_C2_amended_witness :
    ∃ n reason,
      run_full_draw_phase2 opC2 statusC2 120 50 = some (n, reason) ∧
      n ≤ 120 / 50 + 5 ∧
      (reason = .completed → statusC2 n = true) ∧
      (reason = .opFailed → (opC2 n).success = false) :=
  claim_C2_amended opC2 statusC2 120 50 (by norm_num)

/-- The multi-user batch loop returns the least iteration count at which
the completion status holds, provided that count is within the remaining
iteration budget. -/
theorem multi_user_batch_loop_least (st : Nat → Bool) (m : Nat)
    (hm : st m = true) (hmin : ∀ k, k < m → st k = false) :
    ∀ fuel start, start < m → m ≤ start + fuel →
      multi_user_batch_loop st fuel start = m := by
  intro fuel
  induction fuel with
  | zero => intro s h1 h2; omega
  | succ f ih =>
    intro s h1 h2
    simp only [multi_user_batch_loop]
    by_cases he : s + 1 = m
    · rw [he, hm]
      simp
    · have hlt : s + 1 < m := by omega
      rw [hmin _ hlt]
      simp only [Bool.false_eq_true, if_false]
      exact ih (s + 1) hlt (by omega)

/-- C6: when the completion predicate becomes true exactly once all
participants are processed (after `n` batches of size `batch_size`,
complete iff `batch_size * n ≥ user_count`), the batch loop of
`run_multi_user_benchmark` performs exactly
`ceil(user_count / batch_size)` iterations. -/
theorem claim_C6_iterations (user_count batch_size : Nat) (st : Nat → Bool)
    (hu : 0 < user_count) (hb : 0 < batch_size)
    (hst : ∀ n, st n = decide (user_count ≤ batch_size * n)) :
    run_multi_user_batches st user_count batch_size =
      some ((user_count + batch_size - 1) / batch_size) := by
  obtain ⟨q, hq⟩ :
      ∃ q, q = (user_count + batch_size - 1) / batch_size := ⟨_, rfl⟩
  obtain ⟨m, hm'⟩ :
      ∃ m, m = (user_count + batch_size - 1) % batch_size := ⟨_, rfl⟩
  have hdm : batch_size * q + m = user_count + batch_size - 1 := by
    rw [hq, hm']; exact Nat.div_add_mod _ _
  have hmod : m < batch_size := by
    rw [hm']; exact Nat.mod_lt _ hb
  obtain ⟨P, hP⟩ : ∃ P, P = batch_size * q := ⟨_, rfl⟩
  rw [← hP] at hdm
  have h1 : user_count ≤ batch_size * q := by rw [← hP]; omega
  have h2 : ∀ k, k < q → batch_size * k < user_count := by
    intro k hk
    have hmul : batch_size * (k + 1) ≤ batch_size * q :=
      Nat.mul_le_mul_left _ hk
    rw [Nat.mul_succ, ← hP] at hmul
    obtain ⟨Q, hQ⟩ : ∃ Q, Q = batch_size * k := ⟨_, rfl⟩
    rw [← hQ] at hmul ⊢
    omega
  have hm : st q = true := by rw [hst]; exact decide_eq_true h1
  have hmin : ∀ k, k < q → st k = false := by
    intro k hk
    rw [hst]
    exact decide_eq_false (by have := h2 k hk; omega)
  have hq0 : 0 < q := by
    by_contra h
    have h0 : q = 0 := by omega
    rw [h0, Nat.mul_zero] at h1
    omega
  have hqle : q ≤ user_count / batch_size + 1 := by
    have hle : user_count + batch_size - 1 ≤ user_count + batch_size := by
      omega
    have hdiv : (user_count + batch_size - 1) / batch_size ≤
        (user_count + batch_size) / batch_size := Nat.div_le_div_right hle
    rw [Nat.add_div_right _ hb, ← hq] at hdiv
    omega
  rw [run_multi_user_batches, if_neg (by omega), ← hq]
  congr 1
  exact multi_user_batch_loop_least st q hm hmin _ 0 hq0 (by omega)

/-- Witness for C6: 120 participants, batch size 50, completion exactly
after all participants processed — exactly 3 iterations. -/
theorem claim_C6_iterations_witness :
    run_multi_user_batches (fun n => decide (120 ≤ 50 * n)) 120 50 =
      some 3 := by
  have h := claim_C6_iterations 120 50 (fun n => decide (120 ≤ 50 * n))
    (by norm_num) (by norm_num) (fun n => rfl)
  norm_num at h
  exact h

/-- If the first `j` transactions succeed without reporting zero remaining
work and the `j`-th one fails, the lazy batch loop's result is decided by
the "already complete" pattern on the failing output: the accumulated total
on a match, `None` otherwise. -/
theorem lazy_loop_first_failure (op : Nat → LazyTx) :
    ∀ (j fuel i total : Nat), j < fuel →
      (∀ k, k < j → (op (i + k)).success = true ∧
        is_remaining_zero (op (i + k)).output = false) →
      (op (i + j)).success = false →
      lazy_batch_loop op fuel i total =
        (if is_already_complete_msg (op (i + j)).output
         then some (total + batch_comp_sum op i j) else none) := by
  intro j
  induction j with
  | zero =>
    intro fuel i total hj hpre hfail
    obtain ⟨f, rfl⟩ : ∃ f, fuel = f + 1 := ⟨fuel - 1, by omega⟩
    rw [Nat.add_zero] at hfail
    simp only [lazy_batch_loop, hfail]
    simp [batch_comp_sum]
  | succ j ih =>
    intro fuel i total hj hpre hfail
    obtain ⟨f, rfl⟩ : ∃ f, fuel = f + 1 := ⟨fuel - 1, by omega⟩
    obtain ⟨hs, hrz⟩ := hpre 0 (Nat.succ_pos j)
    rw [Nat.add_zero] at hs hrz
    simp only [lazy_batch_loop, hs, hrz]
    have hpre' : ∀ k, k < j → (op ((i + 1) + k)).success = true ∧
        is_remaining_zero (op ((i + 1) + k)).output = false := by
      intro k hk
      have hh := hpre (k + 1) (by omega)
      have hik : i + (k + 1) = (i + 1) + k := by omega
      rwa [hik] at hh
    have hfail' : (op ((i + 1) + j)).success = false := by
      have hij : i + (j + 1) = (i + 1) + j := by omega
      rwa [hij] at hfail
    rw [ih f (i + 1) (total + (op i).computation) (by omega) hpre' hfail']
    have hind : (i + 1) + j = i + (j + 1) := by omega
    rw [hind]
    have hsum : total + (op i).computation + batch_comp_sum op (i + 1) j =
        total + batch_comp_sum op i (j + 1) := by
      simp only [batch_comp_sum]
      omega
    rw [hsum]
    simp

/-- C3: in `benchmark_process_draw_batch`'s batch loop, the first operation
failure decides the run: a failure whose message matches the "already
complete" pattern makes the loop exit successfully with the accumulated
total, while a failure not matching that pattern makes the loop return
`None` (a failed run). -/
theorem claim_C3_absorption (op : Nat → LazyTx) (j : Nat) (hj : j < 100)
    (hpre : ∀ k, k < j → (op k).success = true ∧
      is_remaining_zero (op k).output = false)
    (hfail : (op j).success = false) :
    benchmark_process_draw_batch op =
      (if is_already_complete_msg (op j).output
       then some (batch_comp_sum op 0 j) else none) := by
  have hpre' : ∀ k, k < j → (op (0 + k)).success = true ∧
      is_remaining_zero (op (0 + k)).output = false := by
    intro k hk
    simpa using hpre k hk
  have hfail' : (op (0 + j)).success = false := by simpa using hfail
  have h := lazy_loop_first_failure op j 100 0 0 hj hpre' hfail'
  rw [benchmark_process_draw_batch, h]
  simp

/-- Witness for C3: a first-iteration failure carrying the "already
complete" message is absorbed into a successful result. -/
theorem claim_C3_absorption_witness :
    (opC3w 0).success = false ∧
    is_already_complete_msg (opC3w 0).output = true ∧
    benchmark_process_draw_batch opC3w = some 0 := by
  refine ⟨rfl, by decide, ?_⟩
  have h := claim_C3_absorption opC3w 0 (by norm_num)
    (fun k hk => absurd hk (by omega)) rfl
  rw [h]
  decide

/-- Counterexample to C4 as stated: for the cost list `[0, 5]` the claimed
`rangeRatio = max / max(min, 1)` equals 5, above the threshold 2, yet no
instability is flagged: the run-variability analyzer computes
`variance_ratio = 0` (its `min > 0` guard fails, so `5 > 2` never fires)
and the variability summary's warning counts no cost above 5000. -/
theorem claim_C4_counterexample :
    2 < range_ratio_stat [0, 5] ∧
    high_variance [0, 5] = false ∧
    high_count [0, 5] = 0 := by
  have hmin : min_comp [0, 5] = 0 := by decide
  have hmax : max_comp [0, 5] = 5 := by decide
  refine ⟨?_, ?_, by decide⟩
  · rw [range_ratio_stat, hmin, hmax]
    norm_num
  · rw [high_variance]
    apply decide_eq_false
    rw [variance_ratio_stat, hmin]
    norm_num

/-- C4 (amended): the run-variability analyzer reports min, max, mean and
`variance_ratio = max / min` when `min > 0` (0 otherwise), which for a
positive minimum coincides with the summary's `max / max(min, 1)`; it flags
instability exactly when that ratio exceeds 2; for the costs
`[320, 340, 9500, 330, 335]` the ratio is `9500 / 320` (≈ 29.7) and
instability is flagged. -/
theorem claim_C4_amended (l : List Nat) (hmin : 0 < min_comp l) :
    variance_ratio_stat l = (max_comp l : ℚ) / (min_comp l : ℚ) ∧
    variance_ratio_stat l = range_ratio_stat l ∧
    (high_variance l = true ↔ 2 < variance_ratio_stat l) ∧
    avg_comp l = (l.sum : ℚ) / (l.length : ℚ) ∧
    variance_ratio_stat [320, 340, 9500, 330, 335] = 9500 / 320 ∧
    high_variance [320, 340, 9500, 330, 335] = true := by
  have h320 : min_comp [320, 340, 9500, 330, 335] = 320 := by decide
  have h9500 : max_comp [320, 340, 9500, 330, 335] = 9500 := by decide
  have hconc : variance_ratio_stat [320, 340, 9500, 330, 335] = 9500 / 320 := by
    rw [variance_ratio_stat, h320, h9500]
    norm_num
  refine ⟨?_, ?_, ?_, rfl, hconc, ?_⟩
  · rw [variance_ratio_stat, if_pos hmin]
  · rw [variance_ratio_stat, if_pos hmin, range_ratio_stat,
      max_eq_left hmin]
  · rw [high_variance]
    exact ⟨of_decide_eq_true, decide_eq_true⟩
  · rw [high_variance]
    apply decide_eq_true
    rw [hconc]
    norm_num

/-- Witness for the amended C4 at the scenario-D cost list. -/
theorem claim_C4_amended_witness :
    0 < min_comp [320, 340, 9500, 330, 335] ∧
    variance_ratio_stat [320, 340, 9500, 330, 335] =
      range_ratio_stat [320, 340, 9500, 330, 335] :=
  ⟨by decide, (claim_C4_amended [320, 340, 9500, 330, 335] (by decide)).2.1⟩

/-- A failing probe breaks the probing loop: the samples collected over a
successful prefix followed by a failing probe are exactly those of the
prefix, and the sizes after the failure are never probed. -/
theorem collect_results_break (probe : Nat → ProbeOutcome) (b : Nat)
    (post : List Nat) (hb : (probe b).success = false) :
    ∀ pre : List Nat, (∀ s ∈ pre, (probe s).success = true) →
      collect_results probe (pre ++ b :: post) = collect_results probe pre := by
  intro pre
  induction pre with
  | nil =>
    intro _
    simp [collect_results, hb]
  | cons s rest ih =>
    intro hpre
    have hs : (probe s).success = true := hpre s (List.mem_cons_self _ _)
    have ih' := ih (fun x hx => hpre x (List.mem_cons_of_mem _ hx))
    simp only [List.cons_append, collect_results, hs, if_true]
    rcases hc : (probe s).computation with _ | cu <;> simp only [hc]
    · exact ih'
    · by_cases hcu : 0 < cu
      · simp only [if_pos hcu]
        exact congrArg (List.cons _) ih'
      · simp only [if_neg hcu]
        exact ih'

/-- Counterexample to C5 as stated: in the probe trace where load 100
succeeds at 200 CUs and the probe at load 200 fails, the failed load 200
lies below the reported theoretical maximum 4999, and no downward
correction is applied — `find_batch_limit` computes the estimate from the
successful samples alone and reports 4999, not a value respecting the
failed load. -/
theorem claim_C5_counterexample :
    (probeC5 200).success = false ∧
    collect_results probeC5 [100, 200] = [⟨100, 200⟩] ∧
    theoretical_max (collect_results probeC5 [100, 200]) = 4999 ∧
    ¬ theoretical_max (collect_results probeC5 [100, 200]) ≤ 200 := by
  have hc : collect_results probeC5 [100, 200] = [⟨100, 200⟩] := by decide
  have havg : avg_per_user [⟨100, 200⟩] = 2 := by
    rw [avg_per_user]
    simp [per_user]
    norm_num
  have htm : theoretical_max (collect_results probeC5 [100, 200]) = 4999 := by
    rw [hc, theoretical_max, havg, if_pos (by norm_num : (0 : ℚ) < 2),
      pyInt, if_pos (by norm_num : (0 : ℚ) ≤ 9999 / 2)]
    norm_num
  refine ⟨by decide, hc, htm, ?_⟩
  rw [htm]
  decide

/-- C5 (amended): a probe that fails is excluded from the per-unit cost
average and terminates the probing loop; the estimate is computed solely
from the successful samples gathered before the failure (each from a
successful probe with a positive measured computation), with no downward
correction of the reported maximum from the failed probe's load. -/
theorem claim_C5_amended (probe : Nat → ProbeOutcome) (pre : List Nat)
    (b : Nat) (post : List Nat)
    (hpre : ∀ s ∈ pre, (probe s).success = true)
    (hb : (probe b).success = false) :
    collect_results probe (pre ++ b :: post) = collect_results probe pre ∧
    theoretical_max (collect_results probe (pre ++ b :: post)) =
      theoretical_max (collect_results probe pre) ∧
    ∀ r ∈ collect_results probe pre,
      (probe r.batch_size).success = true ∧ 0 < r.computation := by
  have hmain := collect_results_break probe b post hb pre hpre
  refine ⟨hmain, by rw [hmain], fun r hr => ?_⟩
  obtain ⟨_, h2, _, h4⟩ := collect_results_mem probe pre r hr
  exact ⟨h2, h4⟩

/-- Witness for the amended C5 at the same probe trace as the
counterexample input. -/
theorem claim_C5_amended_witness :
    collect_results probeC5 ([100] ++ 200 :: []) =
      collect_results probeC5 [100] ∧
    theoretical_max (collect_results probeC5 ([100] ++ 200 :: [])) =
      theoretical_max (collect_results probeC5 [100]) ∧
    ∀ r ∈ collect_results probeC5 [100],
      (probeC5 r.batch_size).success = true ∧ 0 < r.computation :=
  claim_C5_amended probeC5 [100] 200 [] (by decide) (by decide)

/-- Counterexample to C7 as stated: a parsed response that declares a
terminal failure state (status FAILED) but carries no error message is
classified as a success by `run_flow_tx` — the failure branch requires a
non-empty declared message, and the fall-through returns `True`. -/
theorem claim_C7_counterexample :
    specDeclaresTerminalFailure jsonFailedNoMsg = true ∧
    (run_flow_tx_class 0 (.parsed "cli-json-output" jsonFailedNoMsg) "").1
      = true := by
  constructor
  · decide
  · decide

/-- C7 (amended): on a parsed response, `run_flow_tx` classifies a failure
iff the declared status is not SEALED and a non-empty declared error
message is present, in which case the declared message is returned; a
parsed non-SEALED response without a message falls through to success.  On
unparsed output the result is a success exactly when the exit status is 0
and neither the 'error' nor the 'panic' marker occurs in the lowercased
combined text. -/
theorem claim_C7_amended (code : Int) (raw stderr : String) (j : TxJson) :
    ((run_flow_tx_class code (.parsed raw j) stderr).1 = false ↔
      sealed_success j = false ∧ declared_error j ≠ "") ∧
    (sealed_success j = false ∧ declared_error j ≠ "" →
      (run_flow_tx_class code (.parsed raw j) stderr).2 = declared_error j) ∧
    ((run_flow_tx_class code (.text raw) stderr).1 = true ↔
      code = 0 ∧ containsLower (raw ++ stderr) "error" = false ∧
        containsLower (raw ++ stderr) "panic" = false) := by
  refine ⟨?_, ?_, ?_⟩
  · simp only [run_flow_tx_class]
    by_cases h : sealed_success j = false ∧ declared_error j ≠ ""
    · rw [if_pos h]
      exact iff_of_true rfl h
    · rw [if_neg h]
      exact iff_of_false (by simp) h
  · intro h
    simp only [run_flow_tx_class, if_pos h]
  · simp only [run_flow_tx_class]
    simp [Bool.and_eq_true, Bool.not_eq_true', beq_iff_eq, and_assoc]

/-- Witness for the amended C7: a declared failure with message is
classified as a failure carrying that message. -/
theorem claim_C7_amended_witness :
    (run_flow_tx_class 0 (.parsed "cli-json" jsonFailedMsg) "").1 = false ∧
    (run_flow_tx_class 0 (.parsed "cli-json" jsonFailedMsg) "").2 = "boom" := by
  have h := claim_C7_amended 0 "cli-json" "" jsonFailedMsg
  refine ⟨h.1.mpr ⟨by decide, by decide⟩, ?_⟩
  have h2 := h.2.1 ⟨by decide, by decide⟩
  rw [h2]
  decide

/-- When the report holds no exact match and does not have exactly one
entry, the correlation loop returns the `(0, 0)` default. -/
theorem resolve_entry_loop_no_match (tx_id : Option String) (len : Nat)
    (hlen : len ≠ 1) :
    ∀ txs : List (String × ReportEntry),
      (∀ p ∈ txs, (truthy_id tx_id && (tx_id == some p.1)) = false) →
      resolve_entry_loop tx_id len txs = (0, 0) := by
  intro txs
  induction txs with
  | nil => intro _; rfl
  | cons hd rest ih =>
    intro hall
    obtain ⟨tid, data⟩ := hd
    simp only [resolve_entry_loop]
    rw [hall (tid, data) (List.mem_cons_self _ _)]
    simp only [Bool.false_eq_true, if_false]
    rw [if_neg (by simpa using hlen)]
    exact ih (fun p hp => hall p (List.mem_cons_of_mem _ hp))

/-- With more than one entry, an available id present among pairwise
distinct keys is resolved by exact match. -/
theorem resolve_entry_loop_found (t : String) (d : ReportEntry) (len : Nat)
    (ht : t ≠ "") (hlen : len ≠ 1) :
    ∀ txs : List (String × ReportEntry), (txs.map Prod.fst).Nodup →
      (t, d) ∈ txs →
      resolve_entry_loop (some t) len txs = (d.computation, d.memory) := by
  intro txs
  induction txs with
  | nil => intro _ hmem; simp at hmem
  | cons hd rest ih =>
    intro hnd hmem
    obtain ⟨tid, data⟩ := hd
    simp only [resolve_entry_loop]
    by_cases he : tid = t
    · subst he
      have hcond : (truthy_id (some tid) &&
          ((some tid : Option String) == some tid)) = true := by
        simp [truthy_id, ht]
      rw [hcond]
      simp only [if_true]
      rcases List.mem_cons.mp hmem with heq | hmem'
      · obtain ⟨-, rfl⟩ := Prod.mk.injEq .. ▸ heq.symm
        rfl
      · exfalso
        have hin : tid ∈ rest.map Prod.fst :=
          List.mem_map_of_mem Prod.fst hmem'
        exact (List.nodup_cons.mp (by simpa using hnd)).1 hin
    · have hcond : (truthy_id (some t) &&
          ((some t : Option String) == some tid)) = false := by
        simp [truthy_id]
        intro _
        exact fun hx => he hx.symm
      rw [hcond]
      simp only [Bool.false_eq_true, if_false]
      rw [if_neg (by simpa using hlen)]
      have hmem' : (t, d) ∈ rest := by
        rcases List.mem_cons.mp hmem with heq | hmem'
        · exact absurd (congrArg Prod.fst heq).symm he
        · exact hmem'
      exact ih (List.Nodup.of_cons (by simpa using hnd)) hmem'

/-- Counterexample to C8 as stated: with an available id `"abc"` and a
report holding the single entry `"xyz"`, the resolver still falls back to
the only entry and returns its data, although per the claim the fallback
is reserved for the case where no id is available. -/
theorem claim_C8_counterexample :
    execute_draw_phase_resolve (some "abc") [("xyz", ⟨7, 3⟩)] = (7, 3) ∧
    specResolve (some "abc") [("xyz", ⟨7, 3⟩)] = (0, 0) := by
  constructor
  · decide
  · decide

/-- C8 (amended): the resolver matches the queried id exactly first (when
the id is available and the report's keys are pairwise distinct, the
returned computation and memory are those recorded for that id); when the
report holds exactly one entry and the exact match does not fire, it falls
back to that only entry regardless of whether an id is available; in every
other unmatched case it returns `(0, 0)`. -/
theorem claim_C8_amended (tx_id : Option String)
    (txs : List (String × ReportEntry)) :
    (∀ t d, tx_id = some t → t ≠ "" → (txs.map Prod.fst).Nodup →
      (t, d) ∈ txs →
      execute_draw_phase_resolve tx_id txs = (d.computation, d.memory)) ∧
    (∀ tid d, txs = [(tid, d)] →
      (truthy_id tx_id && (tx_id == some tid)) = false →
      execute_draw_phase_resolve tx_id txs = (d.computation, d.memory)) ∧
    ((∀ p ∈ txs, (truthy_id tx_id && (tx_id == some p.1)) = false) →
      txs.length ≠ 1 → execute_draw_phase_resolve tx_id txs = (0, 0)) := by
  refine ⟨?_, ?_, ?_⟩
  · intro t d htx ht hnd hmem
    subst htx
    rw [execute_draw_phase_resolve]
    by_cases hlen : txs.length = 1
    · obtain ⟨p, rfl⟩ := List.length_eq_one.mp hlen
      have hp : p = (t, d) := (List.mem_singleton.mp hmem).symm
      subst hp
      simp only [resolve_entry_loop]
      rw [show (truthy_id (some t) &&
          ((some t : Option String) == some t)) = true by
        simp [truthy_id, ht]]
      simp
    · exact resolve_entry_loop_found t d txs.length ht hlen txs hnd hmem
  · intro tid d hts _
    subst hts
    rw [execute_draw_phase_resolve]
    simp only [List.length_singleton, resolve_entry_loop]
    split
    · rfl
    · simp
  · intro hall hlen
    exact resolve_entry_loop_no_match tx_id txs.length hlen txs hall

/-- Witness for the amended C8: exact id resolution in a two-entry
report. -/
theorem claim_C8_amended_witness :
    execute_draw_phase_resolve (some "abc")
      [("abc", ⟨5, 2⟩), ("zzz", ⟨9, 9⟩)] = (5, 2) :=
  (claim_C8_amended (some "abc") [("abc", ⟨5, 2⟩), ("zzz", ⟨9, 9⟩)]).1
    "abc" ⟨5, 2⟩ rfl (by decide) (by decide) (by decide)

end FlowPrizeVault
